import Mathlib

/-!
Verification of the schema-driven SQLite data-access layer
(`app/database/sqlite/sqlite.py`): `TableConfig`, `QueryResult`,
`TableAccessor` and `Sqlite3DataModule` are shallowly embedded below.

The Python module builds parameterized SQL strings and hands them to the
external `sqlite3` engine.  The string building is embedded exactly as in
the source; the external engine (which is not part of the repository) is
modelled by a small interpreter (`sqliteExec` and friends) over the
statement shapes the module generates.  Engine state (connection handle,
committed file contents, uncommitted pending changes, table registry,
facade cache) is threaded explicitly, and every operation additionally
returns the list of observable events (lock acquire/release, statement
execution, commit, rollback) so that locking and transaction claims can be
stated about traces.

All definitions are computable and recursions structural, so concrete runs
evaluate inside the kernel (`rfl`/`decide`).
-/

set_option maxRecDepth 4000
set_option linter.unusedVariables false

namespace AmeDb

/-- Database values: the subset of Python values the data layer passes
through that matters here (integers, strings, NULL). -/
inductive Val where
  | i (n : Int)
  | s (t : String)
  | null
  deriving DecidableEq, Repr

/-- The characters of a string.  All string processing below works on
`List Char` by structural recursion so that it reduces in the kernel. -/
def chars (s : String) : List Char := s.data

def ofChars (l : List Char) : String := String.mk l

/-- `hasPre p l` is true when `p` is a leading segment of `l`. -/
def hasPre : List Char → List Char → Bool
  | [], _ => true
  | _ :: _, [] => false
  | a :: as, b :: bs => (a == b) && hasPre as bs

def dropPre (p l : List Char) : List Char := List.drop p.length l

/-- Python `sep.join(pieces)` on strings. -/
def joinSep (sep : String) : List String → String
  | [] => ""
  | [x] => x
  | x :: y :: rest => x ++ sep ++ joinSep sep (y :: rest)

/-- Joining character-list pieces with a separator. -/
def joinL (sep : List Char) : List (List Char) → List Char
  | [] => []
  | [x] => x
  | x :: y :: rest => x ++ sep ++ joinL sep (y :: rest)

/-- Worker for `splitOnL`; the fuel argument dominates the length of the
scanned list, so the `0` branch is never reached from `splitOnL`. -/
def splitGo (sep : List Char) : Nat → List Char → List Char → List (List Char)
  | 0, rest, acc => [acc.reverse ++ rest]
  | _ + 1, [], acc => [acc.reverse]
  | fuel + 1, c :: cs, acc =>
    if hasPre sep (c :: cs) then
      acc.reverse :: splitGo sep fuel (List.drop sep.length (c :: cs)) []
    else
      splitGo sep fuel cs (c :: acc)

/-- Split a character list on every occurrence of a (non-empty) separator,
as Python's `str.split(sep)`. -/
def splitOnL (sep : List Char) (l : List Char) : List (List Char) :=
  if sep.isEmpty then [l] else splitGo sep (l.length + 1) l []

/-- Number of `?` parameter slots the engine sees in a statement. -/
def qCount (s : String) : Nat := (chars s).count '?'

/-! ### Model of the external sqlite3 engine

Only the statement shapes the Python module generates are interpreted;
anything else is conservatively rejected as a syntax error.  Uniqueness
constraints and `ORDER BY` evaluation are not modelled (no verified claim
depends on them); `INSERT OR IGNORE` therefore behaves like `INSERT`. -/

inductive SqlErr where
  | syntaxError
  | noSuchTable (t : String)
  | noSuchColumn (c : String)
  | bindingMismatch (expected got : Nat)
  deriving DecidableEq, Repr

/-- One physical table: ordered column names and rows of positional values. -/
structure Table where
  cols : List String
  rows : List (List Val)
  deriving DecidableEq, Repr

/-- The physical database: tables by name, in creation order. -/
abbrev DB := List (String × Table)

def dbGet : DB → String → Option Table
  | [], _ => none
  | (k, t) :: rest, n => if k = n then some t else dbGet rest n

def dbSet : DB → String → Table → DB
  | [], n, tb => [(n, tb)]
  | (k, t) :: rest, n, tb => if k = n then (k, tb) :: rest else (k, t) :: dbSet rest n tb

/-- The slice of a `sqlite3.Cursor` the module reads back. -/
structure Cursor where
  lastrowid : Int
  rowcount : Int
  resultRows : List (List Val)
  description : List String
  deriving DecidableEq, Repr

def emptyCursor : Cursor := ⟨0, -1, [], []⟩

/-- Prepared statements, the result of parsing a generated SQL string. -/
inductive Stmt where
  | createTable (name : String) (cols : List String)
  | insertRow (table : String) (cols : List String)
  | updateRows (table : String) (setCols condCols : List String)
  | deleteRows (table : String) (condCols : List String)
  | countRows (table : String) (condCols : List String)
  | selectRows (table : String) (cols : Option (List String)) (condCols : List String)
      (lim off : Option Nat)
  deriving DecidableEq, Repr

/-- Parse one `col = ?` equality piece. -/
def parseEqCond (p : List Char) : Option String :=
  match splitOnL (chars " = ?") p with
  | [c, []] => if c.isEmpty then none else some (ofChars c)
  | _ => none

/-- Parse an `a = ? AND b = ?` conjunction; the empty condition is a
syntax error (as in sqlite, where `WHERE ` with nothing after it is
rejected at prepare time). -/
def parseCondList (s : List Char) : Option (List String) :=
  (splitOnL (chars " AND ") s).mapM parseEqCond

def createPre : String := "CREATE TABLE IF NOT EXISTS "

/-- Column name of one `name TYPE ...` definition piece. -/
def colNameOf (d : List Char) : String :=
  ofChars ((splitOnL (chars " ") d).headD [])

/-- Parse the body after `CREATE TABLE IF NOT EXISTS `. -/
def parseCreate (body : List Char) : Option Stmt :=
  match splitOnL (chars " (") body with
  | name :: d1 :: drest =>
    let defsP := joinL (chars " (") (d1 :: drest)
    if name.isEmpty then none
    else if defsP.getLast? = some ')' then
      some (.createTable (ofChars name)
        ((splitOnL (chars ", ") defsP.dropLast).map colNameOf))
    else none
  | _ => none

/-- Parse the body after `INSERT INTO ` / `INSERT OR IGNORE INTO `. -/
def parseInsert (body : List Char) : Option Stmt :=
  match splitOnL (chars ") VALUES (") body with
  | [head, ph] =>
    if ph.getLast? = some ')' then
      let phs := splitOnL (chars ", ") ph.dropLast
      if phs.all (fun p => p == chars "?") then
        match splitOnL (chars " (") head with
        | [t, colsP] =>
          let cols := splitOnL (chars ", ") colsP
          if phs.length = cols.length ∧ ¬t.isEmpty ∧ cols.all (fun c => !c.isEmpty) then
            some (.insertRow (ofChars t) (cols.map ofChars))
          else none
        | _ => none
      else none
    else none
  | _ => none

/-- Parse the body after `UPDATE `. -/
def parseUpdate (body : List Char) : Option Stmt :=
  match splitOnL (chars " SET ") body with
  | [t, rest] =>
    match splitOnL (chars " WHERE ") rest with
    | [setP, condP] => do
      let setCols ← (splitOnL (chars ", ") setP).mapM parseEqCond
      let condCols ← parseCondList condP
      if t.isEmpty then none else some (.updateRows (ofChars t) setCols condCols)
    | _ => none
  | _ => none

/-- Parse the body after `DELETE FROM `. -/
def parseDelete (body : List Char) : Option Stmt :=
  match splitOnL (chars " WHERE ") body with
  | [t, condP] => do
    let condCols ← parseCondList condP
    if t.isEmpty then none else some (.deleteRows (ofChars t) condCols)
  | _ => none

/-- Parse the body after `SELECT COUNT(*) FROM `. -/
def parseCount (body : List Char) : Option Stmt :=
  match splitOnL (chars " WHERE ") body with
  | [t] => if t.isEmpty then none else some (.countRows (ofChars t) [])
  | [t, condP] => do
    let condCols ← parseCondList condP
    if t.isEmpty then none else some (.countRows (ofChars t) condCols)
  | _ => none

def parseNatL (l : List Char) : Option Nat :=
  if l.isEmpty then none
  else if l.all Char.isDigit then
    some (l.foldl (fun acc c => acc * 10 + (c.toNat - 48)) 0)
  else none

/-- Strip a trailing ` LIMIT n` / ` OFFSET n` style suffix. -/
def stripNatSuffix (sep : List Char) (l : List Char) : Option (List Char × Option Nat) :=
  match splitOnL sep l with
  | [a] => some (a, none)
  | [a, b] =>
    match parseNatL b with
    | some n => some (a, some n)
    | none => none
  | _ => none

/-- Strip a trailing ` ORDER BY expr` suffix.  The ordering expression is
accepted and discarded: result ordering of the external engine is not
modelled and no verified claim depends on it. -/
def stripOrder (l : List Char) : Option (List Char) :=
  match splitOnL (chars " ORDER BY ") l with
  | [a] => some a
  | [a, b] => if b.isEmpty then none else some a
  | _ => none

/-- Parse the body after `SELECT `. -/
def parseSelect (body : List Char) : Option Stmt :=
  match splitOnL (chars " FROM ") body with
  | [colsP, rest] => do
    let cols ←
      if colsP == chars "*" then some none
      else
        let cs := splitOnL (chars ", ") colsP
        if cs.all (fun c => !c.isEmpty) then some (some (cs.map ofChars)) else none
    let (r1, off) ← stripNatSuffix (chars " OFFSET ") rest
    let (r2, lim) ← stripNatSuffix (chars " LIMIT ") r1
    let r3 ← stripOrder r2
    match splitOnL (chars " WHERE ") r3 with
    | [t] => if t.isEmpty then none else some (.selectRows (ofChars t) cols [] lim off)
    | [t, condP] => do
      let condCols ← parseCondList condP
      if t.isEmpty then none else some (.selectRows (ofChars t) cols condCols lim off)
    | _ => none
  | _ => none

/-- Statement parser: dispatch on the statement keyword. -/
def parseStmt (sql : String) : Option Stmt :=
  let l := chars sql
  if hasPre (chars createPre) l then parseCreate (dropPre (chars createPre) l)
  else if hasPre (chars "INSERT OR IGNORE INTO ") l then
    parseInsert (dropPre (chars "INSERT OR IGNORE INTO ") l)
  else if hasPre (chars "INSERT INTO ") l then
    parseInsert (dropPre (chars "INSERT INTO ") l)
  else if hasPre (chars "UPDATE ") l then parseUpdate (dropPre (chars "UPDATE ") l)
  else if hasPre (chars "DELETE FROM ") l then parseDelete (dropPre (chars "DELETE FROM ") l)
  else if hasPre (chars "SELECT COUNT(*) FROM ") l then
    parseCount (dropPre (chars "SELECT COUNT(*) FROM ") l)
  else if hasPre (chars "SELECT ") l then parseSelect (dropPre (chars "SELECT ") l)
  else none

/-! Name resolution and statement application (prepare-time name checks
happen before per-execution parameter binding, as in sqlite). -/

def alookup : List (String × Val) → String → Option Val
  | [], _ => none
  | (k, v) :: rest, n => if k = n then some v else alookup rest n

def colIdx : List String → String → Option Nat
  | [], _ => none
  | c :: rest, n => if c = n then some 0 else (colIdx rest n).map (· + 1)

def rowVal (cols : List String) (row : List Val) (c : String) : Option Val :=
  (colIdx cols c).bind (fun i => row.get? i)

/-- Does a row satisfy an equality-AND condition? -/
def condHolds (cols condCols : List String) (condVals : List Val) (row : List Val) : Bool :=
  (condCols.zip condVals).all (fun kv => rowVal cols row kv.1 == some kv.2)

/-- Apply a `SET` assignment to one row. -/
def setRow (cols : List String) (assignment : List (String × Val)) (row : List Val) : List Val :=
  (cols.zip row).map (fun cv => (alookup assignment cv.1).getD cv.2)

def checkCols (db : DB) (t : String) (cs : List String) : Option SqlErr :=
  match dbGet db t with
  | none => some (.noSuchTable t)
  | some tb =>
    match cs.find? (fun c => !(tb.cols.contains c)) with
    | some c => some (.noSuchColumn c)
    | none => none

def resolveStmt (db : DB) : Stmt → Option SqlErr
  | .createTable _ _ => none
  | .insertRow t cs => checkCols db t cs
  | .updateRows t s c => checkCols db t (s ++ c)
  | .deleteRows t c => checkCols db t c
  | .countRows t c => checkCols db t c
  | .selectRows t cs c _ _ => checkCols db t ((cs.getD []) ++ c)

def projectRow (cols : List String) (row : List Val) (want : List String) : List Val :=
  want.map (fun c => (rowVal cols row c).getD .null)

/-- Execute one resolved statement with bound parameters.  The `none`
fallbacks for a missing table are unreachable: `resolveStmt` has already
established the table exists. -/
def applyStmt (db : DB) : Stmt → List Val → DB × Cursor
  | .createTable n cs, _ =>
    match dbGet db n with
    | some _ => (db, emptyCursor)
    | none => (dbSet db n ⟨cs, []⟩, emptyCursor)
  | .insertRow t cs, params =>
    match dbGet db t with
    | some tb =>
      let assignment := cs.zip params
      let row := tb.cols.map (fun c => (alookup assignment c).getD .null)
      (dbSet db t ⟨tb.cols, tb.rows ++ [row]⟩,
       ⟨Int.ofNat (tb.rows.length + 1), 1, [], []⟩)
    | none => (db, emptyCursor)
  | .updateRows t setCols condCols, params =>
    match dbGet db t with
    | some tb =>
      let hit := condHolds tb.cols condCols (params.drop setCols.length)
      let cnt := (tb.rows.filter hit).length
      let rows2 := tb.rows.map (fun r =>
        if hit r then setRow tb.cols (setCols.zip (params.take setCols.length)) r else r)
      (dbSet db t ⟨tb.cols, rows2⟩, ⟨0, Int.ofNat cnt, [], []⟩)
    | none => (db, emptyCursor)
  | .deleteRows t condCols, params =>
    match dbGet db t with
    | some tb =>
      let hit := condHolds tb.cols condCols params
      let cnt := (tb.rows.filter hit).length
      (dbSet db t ⟨tb.cols, tb.rows.filter (fun r => !hit r)⟩, ⟨0, Int.ofNat cnt, [], []⟩)
    | none => (db, emptyCursor)
  | .countRows t condCols, params =>
    match dbGet db t with
    | some tb =>
      let cnt := (tb.rows.filter (condHolds tb.cols condCols params)).length
      (db, ⟨0, -1, [[Val.i (Int.ofNat cnt)]], ["COUNT(*)"]⟩)
    | none => (db, emptyCursor)
  | .selectRows t cs condCols lim off, params =>
    match dbGet db t with
    | some tb =>
      let want := cs.getD tb.cols
      let rs0 := tb.rows.filter (condHolds tb.cols condCols params)
      let rs1 := match off with | some o => rs0.drop o | none => rs0
      let rs2 := match lim with | some n => rs1.take n | none => rs1
      (db, ⟨0, -1, rs2.map (fun r => projectRow tb.cols r want), want⟩)
    | none => (db, emptyCursor)

/-- Prepare: parse, then resolve names against the schema. -/
def sqlitePrepare (db : DB) (sql : String) : Except SqlErr Stmt :=
  match parseStmt sql with
  | none => .error .syntaxError
  | some st =>
    match resolveStmt db st with
    | some e => .error e
    | none => .ok st

/-- `cursor.execute(sql, params)` at the engine level: prepare, check the
binding count against the number of `?` slots, apply. -/
def sqliteExec (db : DB) (sql : String) (params : List Val) : Except SqlErr (DB × Cursor) :=
  match sqlitePrepare db sql with
  | .error e => .error e
  | .ok st =>
    if params.length = qCount sql then .ok (applyStmt db st params)
    else .error (.bindingMismatch (qCount sql) params.length)

/-- Per-tuple loop of `cursor.executemany`: each tuple is bound (with the
same arity check) and applied in order; the first failure aborts. -/
def execManyLoop (stm : Stmt) (q : Nat) : DB → List (List Val) → Int → Except SqlErr (DB × Int)
  | db, [], acc => .ok (db, acc)
  | db, ps :: rest, acc =>
    if ps.length = q then
      let r := applyStmt db stm ps
      execManyLoop stm q r.1 rest (acc + r.2.rowcount)
    else .error (.bindingMismatch q ps.length)

/-- `cursor.executemany(sql, params_list)` at the engine level: prepare
once, then bind and apply every tuple; `rowcount` accumulates the rows
affected. -/
def sqliteExecMany (db : DB) (sql : String) (paramsList : List (List Val)) :
    Except SqlErr (DB × Cursor) :=
  match sqlitePrepare db sql with
  | .error e => .error e
  | .ok stm =>
    match execManyLoop stm (qCount sql) db paramsList 0 with
    | .error e => .error e
    | .ok (db2, total) => .ok (db2, ⟨0, total, [], []⟩)

/-! ### `TableConfig` (Table Descriptor) -/

/-- Python dict lookup with default on the ordered `columns` mapping. -/
def lookupType : List (String × String) → String → Option String
  | [], _ => none
  | (k, v) :: rest, n => if k = n then some v else lookupType rest n

/-- `TableConfig`: table name, ordered column-name → SQL-type mapping
(Python dicts preserve insertion order), primary key, auto-increment flag. -/
structure TableConfig where
  name : String
  columns : List (String × String)
  primary_key : String := "id"
  auto_increment : Bool := true
  deriving DecidableEq, Repr

/-- `TableConfig.get_create_sql`, embedded from the source: the primary key
definition first (auto-increment integer, or `columns.get(pk, 'INTEGER')`
plus ` PRIMARY KEY`), then every other declared column in registration
order, wrapped in a create-if-absent statement.  A pure function of the
descriptor. -/
def TableConfig.get_create_sql (cfg : TableConfig) : String :=
  let pkDef :=
    if cfg.auto_increment then
      cfg.primary_key ++ " INTEGER PRIMARY KEY AUTOINCREMENT"
    else
      cfg.primary_key ++ " " ++ (lookupType cfg.columns cfg.primary_key).getD "INTEGER" ++
        " PRIMARY KEY"
  let otherDefs :=
    (cfg.columns.filter (fun c => !(c.1 == cfg.primary_key))).map (fun c => c.1 ++ " " ++ c.2)
  createPre ++ cfg.name ++ " (" ++ joinSep ", " (pkDef :: otherDefs) ++ ")"

/-! ### `QueryResult` (Result Set) -/

/-- `QueryResult`: ordered column labels and positional row tuples. -/
structure QueryResult where
  columns : List String
  rows : List (List Val)
  deriving DecidableEq, Repr

/-- `QueryResult.__getitem__`: a labeled record (`dict(zip(columns, row))`)
when `0 <= index < len(rows)`, an `IndexError` otherwise.  The index is an
`Int` because Python indices may be negative. -/
def QueryResult.getItem (qr : QueryResult) (index : Int) : Except String (List (String × Val)) :=
  if 0 ≤ index ∧ index < (qr.rows.length : Int) then
    .ok (qr.columns.zip (qr.rows.getD index.toNat []))
  else .error "Index out of range"

def QueryResult.size (qr : QueryResult) : Nat := qr.rows.length

/-- `QueryResult.first`: `self[0] if len(self.rows) > 0 else None`.  The
`toOption` collapse is exact because `self[0]` cannot raise when the rows
are non-empty. -/
def QueryResult.first (qr : QueryResult) : Option (List (String × Val)) :=
  if 0 < qr.rows.length then (qr.getItem 0).toOption else none

/-- `QueryResult.to_dict_list` / `all`. -/
def QueryResult.to_dict_list (qr : QueryResult) : List (List (String × Val)) :=
  qr.rows.map (fun row => qr.columns.zip row)

/-! ### Engine state, errors, events -/

/-- Errors an operation can raise: `RuntimeError` for a missing connection,
re-raised engine errors, and a `TypeError`-style fallback for malformed
cursor results (unreachable through the modelled backend). -/
inductive Err where
  | notConnected
  | sqlFailure (e : SqlErr)
  | typeMismatch
  deriving DecidableEq, Repr

/-- Observable events of one operation: the module-level write lock being
taken and released, statement execution, commit and rollback. -/
inductive Event where
  | acquireLock
  | releaseLock
  | exec (sql : String)
  | execMany (sql : String) (n : Nat)
  | commit
  | rollback
  deriving DecidableEq, Repr

/-- The facade cache `_table_accessors`: table name ↦ identity of the
cached `TableAccessor` object (a fresh number per construction, so object
identity is expressible). -/
abbrev AccessorCache := List (String × Nat)

def cacheGet : AccessorCache → String → Option Nat
  | [], _ => none
  | (k, v) :: rest, n => if k = n then some v else cacheGet rest n

/-- `Sqlite3DataModule` state: connection flag (`_conn is not None`), the
committed database file, the uncommitted view of the open connection,
the table registry `_tables` (insertion ordered), the facade cache and a
counter for fresh facade identities. -/
structure EngineState where
  connected : Bool
  file : DB
  pending : DB
  tables : List (String × TableConfig)
  accessors : AccessorCache
  nextId : Nat
  deriving DecidableEq, Repr

/-- Result of one engine operation: the Python return value or raised
error, the post-state, and the event trace. -/
structure OpResult (α : Type) where
  result : Except Err α
  state : EngineState
  events : List Event

/-- `register_table`: adds or replaces the descriptor; replacing keeps the
original registry position, as a Python dict update does. -/
def registerTable (st : EngineState) (cfg : TableConfig) : EngineState :=
  { st with tables :=
      let rec upsert : List (String × TableConfig) → List (String × TableConfig)
        | [] => [(cfg.name, cfg)]
        | (k, v) :: rest => if k = cfg.name then (k, cfg) :: rest else (k, v) :: upsert rest
      upsert st.tables }

/-- `connect`: a no-op (logged warning) when already connected; otherwise
opens the handle, whose uncommitted view starts at the file contents. -/
def connectOp (st : EngineState) : OpResult Unit :=
  if st.connected then ⟨.ok (), st, []⟩
  else ⟨.ok (), { st with connected := true, pending := st.file }, []⟩

/-- `disconnect`: commits and releases the handle; a no-op when not
connected. -/
def disconnectOp (st : EngineState) : OpResult Unit :=
  if st.connected then
    ⟨.ok (), { st with connected := false, file := st.pending }, [.commit]⟩
  else ⟨.ok (), st, []⟩

/-- `execute(sql, params)`: `_ensure_connection`, then run the statement,
committing on success and rolling back (and re-raising) on failure.
Python's `if params:` means a missing or empty tuple binds nothing. -/
def executeOp (st : EngineState) (sql : String) (params : Option (List Val)) : OpResult Cursor :=
  if st.connected then
    match sqliteExec st.pending sql (params.getD []) with
    | .ok r =>
      ⟨.ok r.2, { st with pending := r.1, file := r.1 }, [.exec sql, .commit]⟩
    | .error e =>
      ⟨.error (.sqlFailure e), { st with pending := st.file }, [.exec sql, .rollback]⟩
  else ⟨.error .notConnected, st, []⟩

/-- `executemany(sql, params_list)`: like `execute` with a tuple list. -/
def executemanyOp (st : EngineState) (sql : String) (paramsList : List (List Val)) :
    OpResult Cursor :=
  if st.connected then
    match sqliteExecMany st.pending sql paramsList with
    | .ok r =>
      ⟨.ok r.2, { st with pending := r.1, file := r.1 },
        [.execMany sql paramsList.length, .commit]⟩
    | .error e =>
      ⟨.error (.sqlFailure e), { st with pending := st.file },
        [.execMany sql paramsList.length, .rollback]⟩
  else ⟨.error .notConnected, st, []⟩

/-- The SQL string `insert` / `insert_many` build from a record's keys. -/
def insertSql (table : String) (data : List (String × Val)) (ignoreConflict : Bool) : String :=
  let columns := joinSep ", " (data.map (fun kv => kv.1))
  let placeholders := joinSep ", " (data.map (fun _ => "?"))
  if ignoreConflict then
    "INSERT OR IGNORE INTO " ++ table ++ " (" ++ columns ++ ") VALUES (" ++ placeholders ++ ")"
  else
    "INSERT INTO " ++ table ++ " (" ++ columns ++ ") VALUES (" ++ placeholders ++ ")"

/-- `insert`: under the module write lock, build the statement from the
record and execute it, returning `cursor.lastrowid`. -/
def insertOp (st : EngineState) (table : String) (data : List (String × Val))
    (ignoreConflict : Bool) : OpResult Int :=
  let r := executeOp st (insertSql table data ignoreConflict)
    (some (data.map (fun kv => kv.2)))
  ⟨r.result.map (fun c => c.lastrowid), r.state, .acquireLock :: (r.events ++ [.releaseLock])⟩

/-- `insert_many`: under the write lock; an empty record list returns 0
immediately (before any connection check); otherwise the statement is
built from the FIRST record's keys and every record contributes its
values positionally; returns `cursor.rowcount`. -/
def insertManyOp (st : EngineState) (table : String) (dataList : List (List (String × Val)))
    (ignoreConflict : Bool) : OpResult Int :=
  match dataList with
  | [] => ⟨.ok 0, st, [.acquireLock, .releaseLock]⟩
  | d0 :: rest =>
    let r := executemanyOp st (insertSql table d0 ignoreConflict)
      ((d0 :: rest).map (fun d => d.map (fun kv => kv.2)))
    ⟨r.result.map (fun c => c.rowcount), r.state, .acquireLock :: (r.events ++ [.releaseLock])⟩

/-- The SQL string `update` builds; note the `WHERE ` suffix is appended
even when the condition is empty. -/
def updateSql (table : String) (data whereC : List (String × Val)) : String :=
  let setClause := joinSep ", " (data.map (fun kv => kv.1 ++ " = ?"))
  let whereClause := joinSep " AND " (whereC.map (fun kv => kv.1 ++ " = ?"))
  "UPDATE " ++ table ++ " SET " ++ setClause ++ " WHERE " ++ whereClause

/-- `update`: under the write lock, execute `UPDATE ... SET ... WHERE ...`
with the data values followed by the condition values; returns
`cursor.rowcount`. -/
def updateOp (st : EngineState) (table : String) (data whereC : List (String × Val)) :
    OpResult Int :=
  let r := executeOp st (updateSql table data whereC)
    (some (data.map (fun kv => kv.2) ++ whereC.map (fun kv => kv.2)))
  ⟨r.result.map (fun c => c.rowcount), r.state, .acquireLock :: (r.events ++ [.releaseLock])⟩

def deleteSql (table : String) (whereC : List (String × Val)) : String :=
  "DELETE FROM " ++ table ++ " WHERE " ++
    joinSep " AND " (whereC.map (fun kv => kv.1 ++ " = ?"))

/-- `delete`: identical structure to `update` but — as in the source —
WITHOUT acquiring the module write lock. -/
def deleteOp (st : EngineState) (table : String) (whereC : List (String × Val)) : OpResult Int :=
  let r := executeOp st (deleteSql table whereC) (some (whereC.map (fun kv => kv.2)))
  ⟨r.result.map (fun c => c.rowcount), r.state, r.events⟩

/-- The SQL string `select` builds (Python truthiness: an empty column
list, empty condition dict or empty order-by string all count as absent;
`limit`/`offset` are compared against `None` explicitly). -/
def selectSql (table : String) (columns : Option (List String))
    (whereC : Option (List (String × Val))) (orderBy : Option String)
    (lim off : Option Int) : String :=
  let selectClause :=
    match columns with
    | some cs => if cs.isEmpty then "*" else joinSep ", " cs
    | none => "*"
  let base := "SELECT " ++ selectClause ++ " FROM " ++ table
  let s1 :=
    match whereC with
    | some w =>
      if w.isEmpty then base
      else base ++ " WHERE " ++ joinSep " AND " (w.map (fun kv => kv.1 ++ " = ?"))
    | none => base
  let s2 :=
    match orderBy with
    | some ob => if ob = "" then s1 else s1 ++ " ORDER BY " ++ ob
    | none => s1
  let s3 := match lim with | some n => s2 ++ " LIMIT " ++ toString n | none => s2
  match off with | some m => s3 ++ " OFFSET " ++ toString m | none => s3

def whereParams (whereC : Option (List (String × Val))) : List Val :=
  match whereC with
  | some w => if w.isEmpty then [] else w.map (fun kv => kv.2)
  | none => []

/-- `select`: build and execute the query (no write lock), then package
the fetched rows with the requested or described column labels. -/
def selectOp (st : EngineState) (table : String) (columns : Option (List String))
    (whereC : Option (List (String × Val))) (orderBy : Option String)
    (lim off : Option Int) : OpResult QueryResult :=
  let ps := whereParams whereC
  let r := executeOp st (selectSql table columns whereC orderBy lim off)
    (if ps.isEmpty then none else some ps)
  match r.result with
  | .error e => ⟨.error e, r.state, r.events⟩
  | .ok cur =>
    let resultColumns :=
      match columns with
      | some cs => if cs.isEmpty then cur.description else cs
      | none => cur.description
    ⟨.ok ⟨resultColumns, cur.resultRows⟩, r.state, r.events⟩

def countSql (table : String) (whereC : Option (List (String × Val))) : String :=
  let base := "SELECT COUNT(*) FROM " ++ table
  match whereC with
  | some w =>
    if w.isEmpty then base
    else base ++ " WHERE " ++ joinSep " AND " (w.map (fun kv => kv.1 ++ " = ?"))
  | none => base

/-- `count`: `SELECT COUNT(*)` and read `fetchone()[0]` (no write lock). -/
def countOp (st : EngineState) (table : String) (whereC : Option (List (String × Val))) :
    OpResult Int :=
  let ps := whereParams whereC
  let r := executeOp st (countSql table whereC) (if ps.isEmpty then none else some ps)
  match r.result with
  | .error e => ⟨.error e, r.state, r.events⟩
  | .ok cur =>
    match cur.resultRows with
    | (Val.i n :: _) :: _ => ⟨.ok n, r.state, r.events⟩
    | _ => ⟨.error .typeMismatch, r.state, r.events⟩

/-- Per-descriptor loop of `_initialize_tables`: raw `cursor.execute` on
each create statement (no per-statement commit, no rollback on failure);
returns the first error if any, the reached uncommitted database, and the
trace of attempted statements. -/
def runCreates (db : DB) : List TableConfig → Option SqlErr × DB × List Event
  | [] => (none, db, [])
  | c :: rest =>
    match sqliteExec db c.get_create_sql [] with
    | .error e => (some e, db, [.exec c.get_create_sql])
    | .ok r =>
      let t := runCreates r.1 rest
      (t.1, t.2.1, .exec c.get_create_sql :: t.2.2)

/-- `_initialize_tables`: `_ensure_connection`, then issue the create
statement of every registered descriptor in registration order, and a
single `conn.commit()` at the end; any failure aborts the remaining
creates and propagates without rollback. -/
def initializeTablesOp (st : EngineState) : OpResult Unit :=
  if st.connected then
    match runCreates st.pending (st.tables.map (fun p => p.2)) with
    | (some e, db2, evs) => ⟨.error (.sqlFailure e), { st with pending := db2 }, evs⟩
    | (none, db2, evs) =>
      ⟨.ok (), { st with pending := db2, file := db2 }, evs ++ [.commit]⟩
  else ⟨.error .notConnected, st, []⟩

/-! ### Dynamic facade access (`__getattr__`) -/

/-- The values Python attribute access on a `Sqlite3DataModule` can
produce: one of the object's own members (instance field or bound
method), or a cached/fresh `TableAccessor` facade, identified by its
construction number. -/
inductive AttrVal where
  | member (name : String)
  | facade (id : Nat)
  deriving DecidableEq, Repr

/-- Both failures are Python `AttributeError`s, but with distinct
messages: the generic object-has-no-attribute message for
underscore-prefixed names, and the table-not-registered message. -/
inductive PyErr where
  | attributeNotFound (name : String)
  | unregisteredTable (name : String)
  deriving DecidableEq, Repr

/-- The engine object's real attribute namespace — instance attributes set
in `__init__` plus the methods of the class (dunder methods omitted; none
of them is a plausible table name).  Python resolves these BEFORE
`__getattr__` is ever invoked. -/
def objectAttrs : List String :=
  ["_workdir", "_db_name", "_db_path", "_conn", "_cursor", "_tables", "_table_accessors",
   "_ensure_connection", "_initialize_tables", "register_table", "connect", "disconnect",
   "execute", "executemany", "insert", "insert_many", "update", "delete", "select",
   "count", "drop_table", "drop_database", "vacuum", "get_table_names", "table_exists"]

def tablesHas : List (String × TableConfig) → String → Bool
  | [], _ => false
  | (k, _) :: rest, n => (k == n) || tablesHas rest n

def underscored (s : String) : Bool :=
  match chars s with
  | c :: _ => c == '_'
  | [] => false

/-- Full Python attribute lookup on the engine: a real attribute wins;
otherwise `__getattr__` runs — underscore-prefixed names raise the
generic `AttributeError`, a cached facade is returned as-is, a registered
table gets a fresh facade constructed and cached, and anything else
raises the table-not-registered `AttributeError`. -/
def getattrFull (st : EngineState) (name : String) : Except PyErr AttrVal × EngineState :=
  if objectAttrs.contains name then (.ok (.member name), st)
  else if underscored name then (.error (.attributeNotFound name), st)
  else
    match cacheGet st.accessors name with
    | some id => (.ok (.facade id), st)
    | none =>
      if tablesHas st.tables name then
        (.ok (.facade st.nextId),
         { st with accessors := st.accessors ++ [(name, st.nextId)], nextId := st.nextId + 1 })
      else (.error (.unregisteredTable name), st)

/-! ### `TableAccessor` (Table Facade)

Each facade method binds the table name and delegates to the engine. -/

structure TableAccessor where
  table : String
  deriving DecidableEq, Repr

def TableAccessor.insert (ta : TableAccessor) (st : EngineState)
    (data : List (String × Val)) (ignoreConflict : Bool) : OpResult Int :=
  insertOp st ta.table data ignoreConflict

def TableAccessor.insert_many (ta : TableAccessor) (st : EngineState)
    (dataList : List (List (String × Val))) (ignoreConflict : Bool) : OpResult Int :=
  insertManyOp st ta.table dataList ignoreConflict

def TableAccessor.update (ta : TableAccessor) (st : EngineState)
    (data whereC : List (String × Val)) : OpResult Int :=
  updateOp st ta.table data whereC

def TableAccessor.delete (ta : TableAccessor) (st : EngineState)
    (whereC : List (String × Val)) : OpResult Int :=
  deleteOp st ta.table whereC

def TableAccessor.select (ta : TableAccessor) (st : EngineState)
    (columns : Option (List String)) (whereC : Option (List (String × Val)))
    (orderBy : Option String) (lim off : Option Int) : OpResult QueryResult :=
  selectOp st ta.table columns whereC orderBy lim off

def TableAccessor.count (ta : TableAccessor) (st : EngineState)
    (whereC : Option (List (String × Val))) : OpResult Int :=
  countOp st ta.table whereC

instance exceptDecEq {ε α : Type} [DecidableEq ε] [DecidableEq α] :
    DecidableEq (Except ε α) := fun a b =>
  match a, b with
  | .ok x, .ok y =>
    if h : x = y then .isTrue (by rw [h]) else .isFalse (fun hc => h (Except.ok.inj hc))
  | .error x, .error y =>
    if h : x = y then .isTrue (by rw [h]) else .isFalse (fun hc => h (Except.error.inj hc))
  | .ok _, .error _ => .isFalse (fun hc => Except.noConfusion hc)
  | .error _, .ok _ => .isFalse (fun hc => Except.noConfusion hc)

/-! ## Claim C4: shape of the create statement -/

/-- Modelled from the spec: a create-if-absent statement that declares the
primary key as the first column — typed as an auto-incrementing integer
when `auto_increment` is set, otherwise typed per `columns[primary_key]` —
followed by every other declared column in registration order with its
declared type.  The `none` branch of the lookup lies outside the spec's
stated domain (the spec's §3 invariant makes the primary key either
declared or auto-incrementing) and is excluded by the theorem's
hypothesis. -/
def specCreateStatement (cfg : TableConfig) : String :=
  let pkDef :=
    if cfg.auto_increment then
      cfg.primary_key ++ " INTEGER PRIMARY KEY AUTOINCREMENT"
    else
      match lookupType cfg.columns cfg.primary_key with
      | some ty => cfg.primary_key ++ " " ++ ty ++ " PRIMARY KEY"
      | none => cfg.primary_key ++ " " ++ "INTEGER" ++ " PRIMARY KEY"
  let declaredRest :=
    (cfg.columns.filter (fun c => !(c.1 == cfg.primary_key))).map (fun c => c.1 ++ " " ++ c.2)
  createPre ++ cfg.name ++ " (" ++ joinSep ", " (pkDef :: declaredRest) ++ ")"

/-- C4: for every Table Descriptor (whose primary key is declared in
`columns` whenever `auto_increment` is unset, the domain on which the
claim's phrase `columns[primary_key]` is defined), `get_create_sql` is
exactly the statement the spec describes: create-if-absent, primary key
first (auto-increment integer or the declared type plus PRIMARY KEY),
then every other declared column in registration order with its declared
type.  Purity is inherent: `get_create_sql` is a function of the
descriptor alone. -/
theorem c4_create_statement_shape (cfg : TableConfig)
    (h : cfg.auto_increment = true ∨ (lookupType cfg.columns cfg.primary_key).isSome = true) :
    cfg.get_create_sql = specCreateStatement cfg := by
  rcases hA : cfg.auto_increment with _ | _
  · rcases hL : lookupType cfg.columns cfg.primary_key with _ | ty
    · rcases h with h1 | h2
      · rw [hA] at h1; cases h1
      · rw [hL] at h2; cases h2
    · simp [TableConfig.get_create_sql, specCreateStatement, hA, hL]
  · simp [TableConfig.get_create_sql, specCreateStatement, hA]

def c4Cfg : TableConfig :=
  ⟨"users", [("id", "INTEGER"), ("name", "TEXT"), ("email", "TEXT")], "id", true⟩

/-- Witness for C4 at a concrete descriptor. -/
theorem c4_witness :
    (c4Cfg.auto_increment = true ∨ (lookupType c4Cfg.columns c4Cfg.primary_key).isSome = true) ∧
    c4Cfg.get_create_sql = specCreateStatement c4Cfg ∧
    c4Cfg.get_create_sql =
      "CREATE TABLE IF NOT EXISTS users (id INTEGER PRIMARY KEY AUTOINCREMENT, name TEXT, email TEXT)" :=
  ⟨Or.inl rfl, c4_create_statement_shape c4Cfg (Or.inl rfl), rfl⟩

/-! ## Claim C8: Result Set access -/

/-- C8: indexed access returns the labeled record of row `i` exactly when
`0 ≤ i ≤ len(rows)-1` and fails with the out-of-range error otherwise;
`first()` returns the labeled record of row 0 on non-empty rows and the
absent marker (`None`) on empty rows.  All these are pure functions of the
Result Set — no operation can mutate `rows` or `columns`. -/
theorem c8_result_set_access (qr : QueryResult) (i : Int) :
    (∀ (h1 : 0 ≤ i) (h2 : i.toNat < qr.rows.length),
      qr.getItem i = .ok (qr.columns.zip (qr.rows.get ⟨i.toNat, h2⟩))) ∧
    (¬ (0 ≤ i ∧ i < (qr.rows.length : Int)) →
      qr.getItem i = .error "Index out of range") ∧
    (qr.rows ≠ [] → qr.first = some (qr.columns.zip (qr.rows.headD []))) ∧
    (qr.rows = [] → qr.first = none) := by
  refine ⟨?_, ?_, ?_, ?_⟩
  · intro h1 h2
    have hlt : i < (qr.rows.length : Int) := by
      omega
    rw [QueryResult.getItem, if_pos ⟨h1, hlt⟩]
    congr 1
    congr 1
    exact List.getD_eq_getElem qr.rows [] h2
  · intro hno
    rw [QueryResult.getItem, if_neg hno]
  · intro hne
    have hpos : 0 < qr.rows.length := List.length_pos.mpr hne
    rw [QueryResult.first, if_pos hpos, QueryResult.getItem,
      if_pos ⟨le_refl 0, by omega⟩]
    simp [Except.toOption]
    cases hr : qr.rows with
    | nil => exact absurd hr hne
    | cons r rest => simp [hr]
  · intro he
    rw [QueryResult.first, if_neg (by simp [he])]

def c8Qr : QueryResult := ⟨["id", "name"], [[Val.i 1, Val.s "Alice"], [Val.i 2, Val.s "Bob"]]⟩

/-- Witness for C8 at a concrete Result Set and indices. -/
theorem c8_witness :
    c8Qr.getItem 1 = .ok [("id", Val.i 2), ("name", Val.s "Bob")] ∧
    c8Qr.getItem 2 = .error "Index out of range" ∧
    c8Qr.getItem (-1) = .error "Index out of range" ∧
    c8Qr.first = some [("id", Val.i 1), ("name", Val.s "Alice")] :=
  ⟨(c8_result_set_access c8Qr 1).1 (by decide) (by decide),
   (c8_result_set_access c8Qr 2).2.1 (by decide),
   (c8_result_set_access c8Qr (-1)).2.1 (by decide),
   (c8_result_set_access c8Qr 0).2.2.1 (by decide)⟩

/-! ## Claim C5: raw execute commits on success, rolls back on failure -/

/-- C5: while connected, every statement run through the raw `execute` or
`executemany` is attempted exactly once (no automatic retry); success is
followed by a commit (the committed file equals the pending view), and any
failure of the underlying engine is rolled back — the pending view is
restored to the last committed file — before the engine error is re-raised
to the caller as a `sqlFailure`. -/
theorem c5_execute_commit_rollback (st : EngineState) (sql : String)
    (params : Option (List Val)) (paramsList : List (List Val)) (h : st.connected = true) :
    (∀ cur, (executeOp st sql params).result = .ok cur →
      (executeOp st sql params).events = [Event.exec sql, Event.commit] ∧
      (executeOp st sql params).state.file = (executeOp st sql params).state.pending) ∧
    (∀ e, (executeOp st sql params).result = .error e →
      (∃ se, e = Err.sqlFailure se) ∧
      (executeOp st sql params).events = [Event.exec sql, Event.rollback] ∧
      (executeOp st sql params).state.file = st.file ∧
      (executeOp st sql params).state.pending = st.file) ∧
    (∀ cur, (executemanyOp st sql paramsList).result = .ok cur →
      (executemanyOp st sql paramsList).events =
        [Event.execMany sql paramsList.length, Event.commit] ∧
      (executemanyOp st sql paramsList).state.file =
        (executemanyOp st sql paramsList).state.pending) ∧
    (∀ e, (executemanyOp st sql paramsList).result = .error e →
      (∃ se, e = Err.sqlFailure se) ∧
      (executemanyOp st sql paramsList).events =
        [Event.execMany sql paramsList.length, Event.rollback] ∧
      (executemanyOp st sql paramsList).state.file = st.file ∧
      (executemanyOp st sql paramsList).state.pending = st.file) := by
  unfold executeOp executemanyOp
  rw [h]
  simp only [if_true]
  cases hE : sqliteExec st.pending sql (params.getD []) <;>
    cases hM : sqliteExecMany st.pending sql paramsList <;>
      simp_all

def c5St : EngineState :=
  ⟨true, [("t", ⟨["id", "a"], []⟩)], [("t", ⟨["id", "a"], []⟩)], [], [], 0⟩

/-- Witness for C5: a concrete successful INSERT commits, and a concrete
failing statement (unknown table) rolls back. -/
theorem c5_witness :
    (executeOp c5St "INSERT INTO t (a) VALUES (?)" (some [Val.i 4])).events =
      [Event.exec "INSERT INTO t (a) VALUES (?)", Event.commit] ∧
    (executeOp c5St "INSERT INTO missing (a) VALUES (?)" (some [Val.i 4])).events =
      [Event.exec "INSERT INTO missing (a) VALUES (?)", Event.rollback] ∧
    (executeOp c5St "INSERT INTO missing (a) VALUES (?)" (some [Val.i 4])).state.pending =
      c5St.file :=
  ⟨((c5_execute_commit_rollback c5St "INSERT INTO t (a) VALUES (?)" (some [Val.i 4]) []
      rfl).1 ⟨1, 1, [], []⟩ rfl).1,
   ((c5_execute_commit_rollback c5St "INSERT INTO missing (a) VALUES (?)" (some [Val.i 4]) []
      rfl).2.1 (Err.sqlFailure (SqlErr.noSuchTable "missing")) rfl).2.1,
   ((c5_execute_commit_rollback c5St "INSERT INTO missing (a) VALUES (?)" (some [Val.i 4]) []
      rfl).2.1 (Err.sqlFailure (SqlErr.noSuchTable "missing")) rfl).2.2.2⟩

/-! ## Claim C9: write-lock coverage -/

def isLockEvent : Event → Bool
  | .acquireLock => true
  | .releaseLock => true
  | _ => false

/-- The trace takes the module write lock first, releases it last, and
does everything else (build, execute, commit or rollback) in between. -/
def lockBracketed (evs : List Event) : Prop :=
  ∃ inner, evs = Event.acquireLock :: (inner ++ [Event.releaseLock]) ∧
    ∀ e ∈ inner, isLockEvent e = false

lemma executeOp_lockfree (st : EngineState) (sql : String) (params : Option (List Val)) :
    ∀ e ∈ (executeOp st sql params).events, isLockEvent e = false := by
  unfold executeOp
  cases st.connected
  · simp
  · cases sqliteExec st.pending sql (params.getD []) <;> simp [isLockEvent]

lemma executemanyOp_lockfree (st : EngineState) (sql : String)
    (paramsList : List (List Val)) :
    ∀ e ∈ (executemanyOp st sql paramsList).events, isLockEvent e = false := by
  unfold executemanyOp
  cases st.connected
  · simp
  · cases sqliteExecMany st.pending sql paramsList <;> simp [isLockEvent]

/-- C9: `insert`, `insert_many` and `update` acquire the process-wide
write-serialization lock before building and executing their SQL and
release it only after the statement has committed or rolled back (the
lock events bracket the whole trace), while `delete` executes with no
lock event at all. -/
theorem c9_write_lock_coverage (st : EngineState) (table : String)
    (data whereC : List (String × Val)) (dataList : List (List (String × Val)))
    (ic : Bool) :
    lockBracketed (insertOp st table data ic).events ∧
    lockBracketed (insertManyOp st table dataList ic).events ∧
    lockBracketed (updateOp st table data whereC).events ∧
    ∀ e ∈ (deleteOp st table whereC).events, isLockEvent e = false := by
  refine ⟨⟨_, rfl, executeOp_lockfree st _ _⟩, ?_,
    ⟨_, rfl, executeOp_lockfree st _ _⟩, executeOp_lockfree st _ _⟩
  cases dataList with
  | nil => exact ⟨[], rfl, by simp⟩
  | cons d0 rest => exact ⟨_, rfl, executemanyOp_lockfree st _ _⟩

/-! ## Claim C3: operations while unconnected -/

lemma executeOp_notConnected (st : EngineState) (sql : String) (params : Option (List Val))
    (h : st.connected = false) :
    executeOp st sql params = ⟨.error .notConnected, st, []⟩ := by
  unfold executeOp; rw [h]; simp

lemma executemanyOp_notConnected (st : EngineState) (sql : String)
    (paramsList : List (List Val)) (h : st.connected = false) :
    executemanyOp st sql paramsList = ⟨.error .notConnected, st, []⟩ := by
  unfold executemanyOp; rw [h]; simp

/-- C3 (amended): while the connection handle is absent, every operation
other than `connect` fails fast with the not-connected error and leaves
the engine state untouched — with the single exception of `insert_many`
on an EMPTY record list, which returns 0 without ever checking the
connection. -/
theorem c3_not_connected_fails_fast (st : EngineState) (h : st.connected = false)
    (sql table : String) (params : Option (List Val)) (paramsList : List (List Val))
    (data whereC : List (String × Val)) (d0 : List (String × Val))
    (dl : List (List (String × Val))) (ic : Bool) (columns : Option (List String))
    (whereO : Option (List (String × Val))) (orderBy : Option String)
    (lim off : Option Int) :
    ((executeOp st sql params).result = .error .notConnected ∧
      (executeOp st sql params).state = st) ∧
    ((executemanyOp st sql paramsList).result = .error .notConnected ∧
      (executemanyOp st sql paramsList).state = st) ∧
    ((insertOp st table data ic).result = .error .notConnected ∧
      (insertOp st table data ic).state = st) ∧
    ((insertManyOp st table (d0 :: dl) ic).result = .error .notConnected ∧
      (insertManyOp st table (d0 :: dl) ic).state = st) ∧
    ((insertManyOp st table [] ic).result = .ok 0 ∧
      (insertManyOp st table [] ic).state = st) ∧
    ((updateOp st table data whereC).result = .error .notConnected ∧
      (updateOp st table data whereC).state = st) ∧
    ((deleteOp st table whereC).result = .error .notConnected ∧
      (deleteOp st table whereC).state = st) ∧
    ((selectOp st table columns whereO orderBy lim off).result = .error .notConnected ∧
      (selectOp st table columns whereO orderBy lim off).state = st) ∧
    ((countOp st table whereO).result = .error .notConnected ∧
      (countOp st table whereO).state = st) ∧
    ((initializeTablesOp st).result = .error .notConnected ∧
      (initializeTablesOp st).state = st) := by
  have hE : ∀ sql params, executeOp st sql params = ⟨.error .notConnected, st, []⟩ :=
    fun sql params => executeOp_notConnected st sql params h
  have hM : ∀ sql pl, executemanyOp st sql pl = ⟨.error .notConnected, st, []⟩ :=
    fun sql pl => executemanyOp_notConnected st sql pl h
  simp [insertOp, insertManyOp, updateOp, deleteOp, selectOp, countOp,
    initializeTablesOp, hE, hM, h, Except.map]

def discSt : EngineState := ⟨false, [], [], [], [], 0⟩

/-- Counterexample to C3 as stated: `insert_many` with an EMPTY record
list while unconnected succeeds with 0 instead of failing with the
not-connected condition. -/
theorem c3_counterexample :
    (insertManyOp discSt "task" [] false).result = .ok 0 ∧
    (insertManyOp discSt "task" [] false).result ≠ .error Err.notConnected :=
  ⟨rfl, by decide⟩

/-- Witness for the amended C3 at a concrete unconnected engine. -/
theorem c3_witness :
    (insertOp discSt "task" [("name", Val.s "x")] false).result = .error Err.notConnected ∧
    (insertManyOp discSt "task" [[("name", Val.s "x")]] false).result =
      .error Err.notConnected ∧
    (updateOp discSt "task" [("name", Val.s "x")] [("id", Val.i 1)]).result =
      .error Err.notConnected ∧
    (deleteOp discSt "task" [("id", Val.i 1)]).result = .error Err.notConnected ∧
    (selectOp discSt "task" none none none none none).result = .error Err.notConnected ∧
    (countOp discSt "task" none).result = .error Err.notConnected ∧
    (executeOp discSt "VACUUM" none).result = .error Err.notConnected ∧
    (initializeTablesOp discSt).result = .error Err.notConnected :=
  ⟨(c3_not_connected_fails_fast discSt rfl "VACUUM" "task" none [] [("name", Val.s "x")]
      [("id", Val.i 1)] [("name", Val.s "x")] [] false none none none none none).2.2.1.1,
   (c3_not_connected_fails_fast discSt rfl "VACUUM" "task" none [] [("name", Val.s "x")]
      [("id", Val.i 1)] [("name", Val.s "x")] [] false none none none none none).2.2.2.1.1,
   (c3_not_connected_fails_fast discSt rfl "VACUUM" "task" none [] [("name", Val.s "x")]
      [("id", Val.i 1)] [("name", Val.s "x")] [] false none none none none none).2.2.2.2.2.1.1,
   (c3_not_connected_fails_fast discSt rfl "VACUUM" "task" none [] [("name", Val.s "x")]
      [("id", Val.i 1)] [("name", Val.s "x")] [] false none none none none
      none).2.2.2.2.2.2.1.1,
   (c3_not_connected_fails_fast discSt rfl "VACUUM" "task" none [] [("name", Val.s "x")]
      [("id", Val.i 1)] [("name", Val.s "x")] [] false none none none none
      none).2.2.2.2.2.2.2.1.1,
   (c3_not_connected_fails_fast discSt rfl "VACUUM" "task" none [] [("name", Val.s "x")]
      [("id", Val.i 1)] [("name", Val.s "x")] [] false none none none none
      none).2.2.2.2.2.2.2.2.1.1,
   (c3_not_connected_fails_fast discSt rfl "VACUUM" "task" none [] [("name", Val.s "x")]
      [("id", Val.i 1)] [("name", Val.s "x")] [] false none none none none none).1.1,
   (c3_not_connected_fails_fast discSt rfl "VACUUM" "task" none [] [("name", Val.s "x")]
      [("id", Val.i 1)] [("name", Val.s "x")] [] false none none none none
      none).2.2.2.2.2.2.2.2.2.1⟩

/-! ## Claim C2: update with an empty where -/

def c2St : EngineState :=
  ⟨true, [("t", ⟨["id", "a", "k"], [[Val.i 1, Val.i 5, Val.i 7]]⟩)],
   [("t", ⟨["id", "a", "k"], [[Val.i 1, Val.i 5, Val.i 7]]⟩)], [], [], 0⟩

/-- Counterexample to C2 as stated: `update` with an empty `where` is NOT
explicitly rejected as a caller error — the operation builds the
malformed statement `UPDATE t SET a = ? WHERE ` and ATTEMPTS to execute
it (the exec event is in the trace); the failure it reports is the
engine's statement-level syntax error, not a pre-execution caller-error
check.  (The second half of the claim does hold: no row is updated.) -/
theorem c2_counterexample :
    (updateOp c2St "t" [("a", Val.i 9)] []).result =
      .error (Err.sqlFailure SqlErr.syntaxError) ∧
    (updateOp c2St "t" [("a", Val.i 9)] []).events =
      [Event.acquireLock, Event.exec "UPDATE t SET a = ? WHERE ", Event.rollback,
       Event.releaseLock] ∧
    (updateOp c2St "t" [("a", Val.i 9)] []).state.file = c2St.file :=
  ⟨rfl, rfl, rfl⟩

/-- C2 (amended): `update` with an empty `where` has no explicit
empty-where check; it generates a statement ending in `WHERE ` with no
condition, which the underlying engine rejects at prepare time as a
syntax error; the transaction is rolled back and the error re-raised, so
the update is indeed never applied to any row — but the rejection is an
accidental statement failure, not an explicit caller-error rejection.
Stated for every engine state and value at a representative table and
column name. -/
theorem c2_update_empty_where_engine_rejects (st : EngineState) (h : st.connected = true)
    (v : Val) :
    updateSql "t" [("a", v)] [] = "UPDATE t SET a = ? WHERE " ∧
    (updateOp st "t" [("a", v)] []).result = .error (Err.sqlFailure SqlErr.syntaxError) ∧
    (updateOp st "t" [("a", v)] []).events =
      [Event.acquireLock, Event.exec "UPDATE t SET a = ? WHERE ", Event.rollback,
       Event.releaseLock] ∧
    (updateOp st "t" [("a", v)] []).state.file = st.file ∧
    (updateOp st "t" [("a", v)] []).state.pending = st.file := by
  have hexec : ∀ db ps, sqliteExec db "UPDATE t SET a = ? WHERE " ps =
      .error SqlErr.syntaxError := by
    intro db ps
    unfold sqliteExec sqlitePrepare
    rw [show parseStmt "UPDATE t SET a = ? WHERE " = none from rfl]
  have hrun : executeOp st "UPDATE t SET a = ? WHERE " (some [v]) =
      ⟨.error (.sqlFailure .syntaxError), { st with pending := st.file },
       [.exec "UPDATE t SET a = ? WHERE ", .rollback]⟩ := by
    unfold executeOp
    rw [h, hexec]
    simp
  refine ⟨rfl, ?_, ?_, ?_, ?_⟩ <;>
    simp [updateOp, show updateSql "t" [("a", v)] [] = "UPDATE t SET a = ? WHERE " from rfl,
      hrun, Except.map]

/-- Witness for the amended C2 at a concrete engine state and value. -/
theorem c2_witness :
    (updateOp c2St "t" [("a", Val.i 9)] []).result =
      .error (Err.sqlFailure SqlErr.syntaxError) ∧
    (updateOp c2St "t" [("a", Val.i 9)] []).state.file = c2St.file :=
  ⟨(c2_update_empty_where_engine_rejects c2St rfl (Val.i 9)).2.1,
   (c2_update_empty_where_engine_rejects c2St rfl (Val.i 9)).2.2.2.1⟩

/-! ## Claims C7 and C10: dynamic facade access -/

lemma cacheGet_append_self (l : AccessorCache) (n : String) (v : Nat)
    (h : cacheGet l n = none) : cacheGet (l ++ [(n, v)]) n = some v := by
  induction l with
  | nil => simp [cacheGet]
  | cons p rest ih =>
    obtain ⟨k, w⟩ := p
    simp only [List.cons_append, cacheGet] at h ⊢
    by_cases hk : k = n
    · rw [if_pos hk] at h; cases h
    · rw [if_neg hk] at h ⊢
      exact ih h

lemma getattr_cached (st : EngineState) (name : String) (id : Nat)
    (h1 : objectAttrs.contains name = false) (h2 : underscored name = false)
    (hc : cacheGet st.accessors name = some id) :
    getattrFull st name = (.ok (.facade id), st) := by
  unfold getattrFull
  rw [h1, h2, hc]
  simp

def plainSt : EngineState := ⟨false, [], [], [], [], 0⟩

/-- Counterexample to C7 as stated: for the never-registered table name
`connect`, facade access does NOT fail with the unregistered-table
condition — Python resolves the engine's own `connect` method first, so
`__getattr__` never runs. -/
theorem c7_counterexample :
    (getattrFull plainSt "connect").1 = .ok (AttrVal.member "connect") ∧
    (getattrFull plainSt "connect").1 ≠ .error (PyErr.unregisteredTable "connect") :=
  ⟨rfl, by decide⟩

/-- C7 (amended): for every table name that is neither underscore-prefixed
nor one of the engine object's own attribute names, facade access fails
with the unregistered-table condition when the name was never registered
(nor cached), and for a registered name returns a facade constructed
lazily on first access and cached, so that a later access returns the
identical cached facade and leaves the state unchanged. -/
theorem c7_get_table_cached (st : EngineState) (name : String)
    (h1 : objectAttrs.contains name = false) (h2 : underscored name = false) :
    ((cacheGet st.accessors name = none ∧ tablesHas st.tables name = false) →
      getattrFull st name = (.error (.unregisteredTable name), st)) ∧
    (tablesHas st.tables name = true →
      ∃ id st2, getattrFull st name = (.ok (.facade id), st2) ∧
        cacheGet st2.accessors name = some id ∧
        st2.tables = st.tables ∧
        getattrFull st2 name = (.ok (.facade id), st2)) := by
  constructor
  · rintro ⟨hc, ht⟩
    unfold getattrFull
    rw [h1, h2, hc, ht]
    simp
  · intro ht
    cases hc : cacheGet st.accessors name with
    | some id =>
      exact ⟨id, st, getattr_cached st name id h1 h2 hc, hc, rfl,
        getattr_cached st name id h1 h2 hc⟩
    | none =>
      have hm : name ∉ objectAttrs := by simpa using h1
      have hfst : (getattrFull st name).1 = .ok (.facade st.nextId) := by
        simp [getattrFull, h1, h2, hc, ht, hm]
      have hacc : (getattrFull st name).2.accessors = st.accessors ++ [(name, st.nextId)] := by
        simp [getattrFull, h1, h2, hc, ht, hm]
      have htab : (getattrFull st name).2.tables = st.tables := by
        simp [getattrFull, h1, h2, hc, ht, hm]
      have hcache : cacheGet (getattrFull st name).2.accessors name = some st.nextId := by
        rw [hacc]
        exact cacheGet_append_self st.accessors name st.nextId hc
      exact ⟨st.nextId, (getattrFull st name).2,
        by rw [← hfst], hcache, htab,
        getattr_cached _ name st.nextId h1 h2 hcache⟩

def c7St : EngineState :=
  ⟨true, [], [], [("task", ⟨"task", [("id", "INTEGER"), ("name", "VARCHAR")], "id", true⟩)],
   [], 0⟩

/-- Witness for the amended C7: a registered name yields a cached facade
stable across accesses; an unregistered name fails as unregistered. -/
theorem c7_witness :
    (∃ id st2, getattrFull c7St "task" = (.ok (.facade id), st2) ∧
      cacheGet st2.accessors "task" = some id ∧ st2.tables = c7St.tables ∧
      getattrFull st2 "task" = (.ok (.facade id), st2)) ∧
    getattrFull c7St "missing" = (.error (.unregisteredTable "missing"), c7St) :=
  ⟨(c7_get_table_cached c7St "task" (by decide) (by decide)).2 (by decide),
   (c7_get_table_cached c7St "missing" (by decide) (by decide)).1 ⟨rfl, rfl⟩⟩

/-- C10: for a registered table whose name begins with an underscore or
collides with an engine attribute, dynamic access never yields the
table's facade: a colliding name resolves to the engine's own member
(Python finds real attributes before `__getattr__` runs), and an
underscore-prefixed name that is not a real attribute raises the generic
attribute-not-found error — even though the table is in the registry. -/
theorem c10_shadowed_names (st : EngineState) (name : String)
    (hReg : tablesHas st.tables name = true)
    (hBad : underscored name = true ∨ objectAttrs.contains name = true) :
    (∀ id, (getattrFull st name).1 ≠ .ok (.facade id)) ∧
    (objectAttrs.contains name = true → getattrFull st name = (.ok (.member name), st)) ∧
    (underscored name = true → objectAttrs.contains name = false →
      getattrFull st name = (.error (.attributeNotFound name), st)) := by
  refine ⟨?_, ?_, ?_⟩
  · intro id hEq
    unfold getattrFull at hEq
    cases hA : objectAttrs.contains name with
    | true => rw [hA] at hEq; simp at hEq
    | false =>
      rcases hBad with hU | hC
      · rw [hA, hU] at hEq; simp at hEq
      · rw [hC] at hA; cases hA
  · intro hC
    unfold getattrFull
    rw [hC]
    simp
  · intro hU hA
    unfold getattrFull
    rw [hA, hU]
    simp

def c10St : EngineState :=
  ⟨true, [], [],
   [("_hidden", ⟨"_hidden", [("id", "INTEGER")], "id", true⟩),
    ("insert", ⟨"insert", [("id", "INTEGER")], "id", true⟩)], [], 0⟩

/-- Witness for C10 at a registry containing an underscore-prefixed table
and a table shadowing the `insert` method. -/
theorem c10_witness :
    getattrFull c10St "insert" = (.ok (.member "insert"), c10St) ∧
    getattrFull c10St "_hidden" = (.error (.attributeNotFound "_hidden"), c10St) ∧
    (∀ id, (getattrFull c10St "insert").1 ≠ .ok (.facade id)) :=
  ⟨(c10_shadowed_names c10St "insert" (by decide) (Or.inr (by decide))).2.1 (by decide),
   (c10_shadowed_names c10St "_hidden" (by decide) (Or.inl (by decide))).2.2 (by decide)
     (by decide),
   (c10_shadowed_names c10St "insert" (by decide) (Or.inr (by decide))).1⟩

/-! ## Claim C1: insert_many with inconsistent key sets -/

def c1St : EngineState :=
  ⟨true, [("t", ⟨["id", "a", "b"], []⟩)], [("t", ⟨["id", "a", "b"], []⟩)], [], [], 0⟩

/-- Counterexample to C1 as stated: the second record's key set differs
from the first's ({a, c} vs {a, b}) and yet `insert_many` does NOT fail
with any schema-mismatch condition — it writes both rows, binding the
second record's `c`-value into column `b` positionally. -/
theorem c1_counterexample :
    (insertManyOp c1St "t"
      [[("a", Val.i 1), ("b", Val.i 2)], [("a", Val.i 1), ("c", Val.i 3)]] false).result =
      .ok 2 ∧
    (insertManyOp c1St "t"
      [[("a", Val.i 1), ("b", Val.i 2)], [("a", Val.i 1), ("c", Val.i 3)]]
        false).state.file =
      [("t", ⟨["id", "a", "b"],
        [[Val.null, Val.i 1, Val.i 2], [Val.null, Val.i 1, Val.i 3]]⟩)] :=
  ⟨rfl, rfl⟩

lemma execManyLoop_arity_err (stm : Stmt) (q : Nat) (l : List (List Val)) :
    ∀ (db : DB) (acc : Int), (∃ ps ∈ l, ps.length ≠ q) →
      ∃ e, execManyLoop stm q db l acc = .error e := by
  induction l with
  | nil =>
    rintro db acc ⟨ps, hmem, _⟩
    cases hmem
  | cons ps rest ih =>
    rintro db acc ⟨ps0, hmem, hne⟩
    by_cases hlen : ps.length = q
    · rcases List.mem_cons.mp hmem with heq | hmem2
      · subst heq
        exact absurd hlen hne
      · unfold execManyLoop
        rw [if_pos hlen]
        exact ih _ _ ⟨ps0, hmem2, hne⟩
    · refine ⟨.bindingMismatch q ps.length, ?_⟩
      unfold execManyLoop
      rw [if_neg hlen]

lemma executemanyOp_err (st : EngineState) (sql : String) (pl : List (List Val)) (e : SqlErr)
    (hconn : st.connected = true) (hrun : sqliteExecMany st.pending sql pl = .error e) :
    executemanyOp st sql pl =
      ⟨.error (.sqlFailure e), { st with pending := st.file },
       [.execMany sql pl.length, .rollback]⟩ := by
  unfold executemanyOp
  rw [hconn, hrun]
  simp

lemma map_const_eq {α β : Type} (b : β) :
    ∀ (l1 l2 : List α), l1.length = l2.length → l1.map (fun _ => b) = l2.map (fun _ => b)
  | [], [], _ => rfl
  | [], _ :: _, h => by cases h
  | _ :: _, [], h => by cases h
  | a :: t1, c :: t2, h => by
    simp only [List.map_cons]
    rw [map_const_eq b t1 t2 (by simpa using h)]

/-- C1 (amended): `insert_many` performs NO key-set validation.  The
statement is built from the first record's keys alone, and every record
contributes only its values, bound positionally: (i) the whole operation
is a function of the first record's key list and the records' value
lists — records after the first can carry arbitrary key names without
changing the outcome; (ii) a record whose key COUNT differs from the
first's makes the underlying engine reject the batch (binding-count
mismatch), which is rolled back, so the committed file is unchanged —
only in that case does the operation fail rather than write rows. -/
theorem c1_insert_many_no_key_validation :
    (∀ (st : EngineState) (table : String) (ic : Bool) (d0 d1 : List (String × Val))
        (r0 r1 : List (List (String × Val))),
      d0.map (fun kv => kv.1) = d1.map (fun kv => kv.1) →
      (d0 :: r0).map (fun d => d.map (fun kv => kv.2)) =
        (d1 :: r1).map (fun d => d.map (fun kv => kv.2)) →
      insertManyOp st table (d0 :: r0) ic = insertManyOp st table (d1 :: r1) ic) ∧
    (∀ (st : EngineState) (table : String) (ic : Bool) (d0 : List (String × Val))
        (r0 : List (List (String × Val))),
      st.connected = true →
      (∃ d ∈ d0 :: r0, d.length ≠ d0.length) →
      (∃ e, (insertManyOp st table (d0 :: r0) ic).result = .error (Err.sqlFailure e)) ∧
      (insertManyOp st table (d0 :: r0) ic).state.file = st.file ∧
      (insertManyOp st table (d0 :: r0) ic).state.pending = st.file) := by
  constructor
  · intro st table ic d0 d1 r0 r1 hkeys hvals
    have hlen : d0.length = d1.length := by
      have := congrArg List.length hkeys
      simpa using this
    have hsql : insertSql table d0 ic = insertSql table d1 ic := by
      unfold insertSql
      rw [hkeys, map_const_eq "?" d0 d1 hlen]
    simp only [insertManyOp]
    rw [hsql, hvals]
  · intro st table ic d0 r0 hconn hbad
    set sql := insertSql table d0 ic with hsqldef
    set tuples := (d0 :: r0).map (fun d => d.map (fun kv => kv.2)) with htupdef
    have htup : ∃ ps ∈ tuples, ps.length ≠ qCount sql := by
      rcases hbad with ⟨d, hmem, hne⟩
      by_cases hq : d0.length = qCount sql
      · refine ⟨d.map (fun kv => kv.2), List.mem_map_of_mem _ hmem, ?_⟩
        simp only [List.length_map]
        omega
      · refine ⟨d0.map (fun kv => kv.2), List.mem_map_of_mem _ (List.mem_cons_self d0 r0), ?_⟩
        simp only [List.length_map]
        exact hq
    have hrun : ∃ e, sqliteExecMany st.pending sql tuples = .error e := by
      unfold sqliteExecMany
      cases hp : sqlitePrepare st.pending sql with
      | error e => exact ⟨e, rfl⟩
      | ok stm =>
        obtain ⟨e, he⟩ := execManyLoop_arity_err stm (qCount sql) tuples st.pending 0 htup
        refine ⟨e, ?_⟩
        simp only [hp, he]
    obtain ⟨e, he⟩ := hrun
    have hop := executemanyOp_err st sql tuples e hconn he
    refine ⟨⟨e, ?_⟩, ?_, ?_⟩ <;> simp [insertManyOp, ← hsqldef, ← htupdef, hop, Except.map]

/-- Witness for the amended C1: (i) changing the keys of a LATER record
(values unchanged) does not change the outcome at all; (ii) a record with
a different key count fails the batch and leaves the file unchanged. -/
theorem c1_witness :
    insertManyOp c1St "t"
        [[("a", Val.i 7), ("b", Val.i 8)], [("b", Val.i 9), ("c", Val.i 10)]] false =
      insertManyOp c1St "t"
        [[("a", Val.i 7), ("b", Val.i 8)], [("x", Val.i 9), ("y", Val.i 10)]] false ∧
    (∃ e, (insertManyOp c1St "t"
        [[("a", Val.i 7)], [("a", Val.i 8), ("b", Val.i 9)]] false).result =
      .error (Err.sqlFailure e)) ∧
    (insertManyOp c1St "t"
        [[("a", Val.i 7)], [("a", Val.i 8), ("b", Val.i 9)]] false).state.file =
      c1St.file :=
  ⟨c1_insert_many_no_key_validation.1 c1St "t" false _ _ _ _ rfl rfl,
   (c1_insert_many_no_key_validation.2 c1St "t" false _ _ rfl
     ⟨[("a", Val.i 8), ("b", Val.i 9)], by decide, by decide⟩).1,
   (c1_insert_many_no_key_validation.2 c1St "t" false _ _ rfl
     ⟨[("a", Val.i 8), ("b", Val.i 9)], by decide, by decide⟩).2.1⟩

/-! ## Claim C6: initialize_tables -/

lemma chars_append (s t : String) : chars (s ++ t) = chars s ++ chars t := rfl

lemma hasPre_append (p rest : List Char) : hasPre p (p ++ rest) = true := by
  induction p with
  | nil => rfl
  | cons c cs ih => simp [hasPre, ih]

lemma get_create_sql_hasPre (c : TableConfig) :
    hasPre (chars createPre) (chars c.get_create_sql) = true := by
  unfold TableConfig.get_create_sql
  simp only [chars_append, List.append_assoc]
  exact hasPre_append _ _

lemma parseCreate_shape (body : List Char) (stm : Stmt) (h : parseCreate body = some stm) :
    ∃ n cols, stm = .createTable n cols := by
  unfold parseCreate at h
  rcases hsp : splitOnL (chars " (") body with _ | ⟨name, rest⟩
  · simp only [hsp] at h
    cases h
  · rcases rest with _ | ⟨d1, drest⟩
    · simp only [hsp] at h
      cases h
    · simp only [hsp] at h
      by_cases h1 : name.isEmpty
      · simp [h1] at h
      · by_cases h2 : (joinL (chars " (") (d1 :: drest)).getLast? = some ')'
        · simp [h1, h2] at h
          exact ⟨_, _, h.symm⟩
        · simp [h1, h2] at h

lemma dbGet_dbSet_self (db : DB) (n : String) (tb : Table) :
    dbGet (dbSet db n tb) n = some tb := by
  induction db with
  | nil => simp [dbSet, dbGet]
  | cons p rest ih =>
    obtain ⟨k, t⟩ := p
    by_cases hk : k = n
    · simp [dbSet, dbGet, hk]
    · simp [dbSet, dbGet, hk, ih]

lemma dbGet_dbSet_mono (db : DB) (n m : String) (tb : Table)
    (h : (dbGet db m).isSome = true) : (dbGet (dbSet db n tb) m).isSome = true := by
  induction db with
  | nil => simp [dbGet] at h
  | cons p rest ih =>
    obtain ⟨k, t⟩ := p
    by_cases hk : k = n <;> by_cases hm : k = m <;>
      simp_all [dbSet, dbGet]

/-- What a SUCCESSFUL raw execution of a create-if-absent statement tells
us: the statement parses as a `createTable`, had no parameter slots, and
afterwards the created table is present while every previously present
table is preserved. -/
lemma create_exec_ok_shape (db : DB) (s : String) (db2 : DB) (cur : Cursor)
    (hPre : hasPre (chars createPre) (chars s) = true)
    (hOk : sqliteExec db s [] = .ok (db2, cur)) :
    ∃ n cols, parseStmt s = some (.createTable n cols) ∧ qCount s = 0 ∧
      (dbGet db2 n).isSome = true ∧
      (∀ m, (dbGet db m).isSome = true → (dbGet db2 m).isSome = true) := by
  have hps : parseStmt s = parseCreate (dropPre (chars createPre) (chars s)) := by
    simp [parseStmt, hPre]
  cases hpc : parseCreate (dropPre (chars createPre) (chars s)) with
  | none =>
    exfalso
    unfold sqliteExec sqlitePrepare at hOk
    rw [hps] at hOk
    simp [hpc] at hOk
  | some stm =>
    obtain ⟨n, cols, rfl⟩ := parseCreate_shape _ _ hpc
    refine ⟨n, cols, hps.trans hpc, ?_⟩
    unfold sqliteExec sqlitePrepare at hOk
    rw [hps] at hOk
    simp only [hpc, resolveStmt] at hOk
    by_cases hq : List.length ([] : List Val) = qCount s
    · rw [if_pos hq] at hOk
      refine ⟨by simpa using hq.symm, ?_⟩
      have happ : applyStmt db (.createTable n cols) [] = (db2, cur) := Except.ok.inj hOk
      simp only [applyStmt] at happ
      cases hg : dbGet db n with
      | some tb =>
        simp only [hg] at happ
        rw [Prod.mk.injEq] at happ
        obtain ⟨hdb, -⟩ := happ
        constructor
        · rw [← hdb, hg]; rfl
        · intro m hm
          rw [← hdb]
          exact hm
      | none =>
        simp only [hg] at happ
        rw [Prod.mk.injEq] at happ
        obtain ⟨hdb, -⟩ := happ
        constructor
        · rw [← hdb, dbGet_dbSet_self]; rfl
        · intro m hm
          rw [← hdb]
          exact dbGet_dbSet_mono db n m _ hm
    · rw [if_neg hq] at hOk
      cases hOk

/-- Re-issuing a create-if-absent statement whose table already exists is
an accepted no-op. -/
lemma create_exec_noop (db : DB) (s : String) (n : String) (cols : List String)
    (hP : parseStmt s = some (.createTable n cols)) (hQ : qCount s = 0)
    (hIn : (dbGet db n).isSome = true) :
    sqliteExec db s [] = .ok (db, emptyCursor) := by
  unfold sqliteExec sqlitePrepare
  rw [hP]
  simp only [resolveStmt]
  rw [if_pos (by simpa using hQ.symm)]
  obtain ⟨tb, htb⟩ := Option.isSome_iff_exists.mp hIn
  simp only [applyStmt, htb]

/-- Characterization of a SUCCESSFUL `runCreates` pass: the trace is
exactly the create statements in registration order, existing tables are
preserved, and afterwards every descriptor's table exists (with its
create statement parsed and parameterless). -/
lemma runCreates_ok_char (cfgs : List TableConfig) :
    ∀ db db2 evs, runCreates db cfgs = (none, db2, evs) →
      evs = cfgs.map (fun c => Event.exec c.get_create_sql) ∧
      (∀ m, (dbGet db m).isSome = true → (dbGet db2 m).isSome = true) ∧
      (∀ c ∈ cfgs, ∃ n cols, parseStmt c.get_create_sql = some (.createTable n cols) ∧
        qCount c.get_create_sql = 0 ∧ (dbGet db2 n).isSome = true) := by
  induction cfgs with
  | nil =>
    intro db db2 evs h
    unfold runCreates at h
    injection h with h1 h23
    injection h23 with h2 h3
    subst h2
    subst h3
    exact ⟨rfl, fun m hm => hm, by simp⟩
  | cons c rest ih =>
    intro db db2 evs h
    unfold runCreates at h
    split at h
    · cases h
    case _ r hE =>
      rcases ht : runCreates r.1 rest with ⟨eOpt, db3, evs'⟩
      rw [ht] at h
      simp only [] at h
      injection h with h1 h23
      injection h23 with h2 h3
      subst h1
      subst h2
      subst h3
      obtain ⟨hevs, hmono, hall⟩ := ih r.1 db3 evs' ht
      obtain ⟨n, cols, hparse, hq, hn, hmono0⟩ :=
        create_exec_ok_shape db c.get_create_sql r.1 r.2 (get_create_sql_hasPre c)
          (by rw [hE])
      refine ⟨by rw [hevs]; rfl, fun m hm => hmono m (hmono0 m hm), ?_⟩
      intro c2 hc2
      rcases List.mem_cons.mp hc2 with rfl | hc2
      · exact ⟨n, cols, hparse, hq, hmono n hn⟩
      · exact hall c2 hc2

/-- Characterization of a FAILED `runCreates` pass: the trace is the
first `k+1` create statements in registration order (the last one being
the failing attempt). -/
lemma runCreates_err_events (cfgs : List TableConfig) :
    ∀ db db2 evs e, runCreates db cfgs = (some e, db2, evs) →
      ∃ k, k + 1 ≤ cfgs.length ∧
        evs = ((cfgs.take (k + 1)).map (fun c => Event.exec c.get_create_sql)) := by
  induction cfgs with
  | nil =>
    intro db db2 evs e h
    unfold runCreates at h
    injection h with h1 h23
    cases h1
  | cons c rest ih =>
    intro db db2 evs e h
    unfold runCreates at h
    split at h
    case _ e2 hE =>
      injection h with h1 h23
      injection h23 with h2 h3
      subst h3
      exact ⟨0, by simp, rfl⟩
    case _ r hE =>
      rcases ht : runCreates r.1 rest with ⟨eOpt, db3, evs'⟩
      rw [ht] at h
      simp only [] at h
      injection h with h1 h23
      injection h23 with h2 h3
      subst h1
      subst h2
      subst h3
      obtain ⟨k, hk, hevs'⟩ := ih r.1 db3 evs' e ht
      refine ⟨k + 1, by simpa using hk, ?_⟩
      rw [hevs']
      rfl

/-- A successful `runCreates` pass is idempotent: re-running it from the
database it produced succeeds, changes nothing and replays the same
trace. -/
lemma runCreates_idem (cfgs : List TableConfig) :
    ∀ db db2 evs, runCreates db cfgs = (none, db2, evs) →
      runCreates db2 cfgs = (none, db2, evs) := by
  induction cfgs with
  | nil =>
    intro db db2 evs h
    unfold runCreates at h
    injection h with h1 h23
    injection h23 with h2 h3
    subst h2
    subst h3
    rfl
  | cons c rest ih =>
    intro db db2 evs h
    unfold runCreates at h
    split at h
    · cases h
    case _ r hE =>
      rcases ht : runCreates r.1 rest with ⟨eOpt, db3, evs'⟩
      rw [ht] at h
      simp only [] at h
      injection h with h1 h23
      injection h23 with h2 h3
      subst h1
      subst h2
      subst h3
      obtain ⟨n, cols, hparse, hq, hn, -⟩ :=
        create_exec_ok_shape db c.get_create_sql r.1 r.2 (get_create_sql_hasPre c)
          (by rw [hE])
      obtain ⟨-, hmono, -⟩ := runCreates_ok_char rest r.1 db3 evs' ht
      have hnoop := create_exec_noop db3 c.get_create_sql n cols hparse hq (hmono n hn)
      unfold runCreates
      simp only [hnoop]
      rw [ih r.1 db3 evs' ht]

lemma initializeTablesOp_ok_char (s : EngineState) (db2 : DB) (evs : List Event)
    (hc : s.connected = true)
    (hrc : runCreates s.pending (s.tables.map (fun p => p.2)) = (none, db2, evs)) :
    initializeTablesOp s =
      ⟨.ok (), { s with pending := db2, file := db2 }, evs ++ [.commit]⟩ := by
  unfold initializeTablesOp
  rw [hrc]
  simp [hc]

lemma initializeTablesOp_err_char (s : EngineState) (e : SqlErr) (db2 : DB) (evs : List Event)
    (hc : s.connected = true)
    (hrc : runCreates s.pending (s.tables.map (fun p => p.2)) = (some e, db2, evs)) :
    initializeTablesOp s = ⟨.error (.sqlFailure e), { s with pending := db2 }, evs⟩ := by
  unfold initializeTablesOp
  rw [hrc]
  simp [hc]

/-- C6: while connected, `initialize_tables` issues the create-if-absent
statement of every registered descriptor in registration order with a
single commit at the very end of the trace; any statement failure aborts
the remaining creates (the trace stops at the failing statement, with no
commit) and propagates the engine error; and when a run succeeds, running
it again succeeds as a no-op (identical resulting state — no
duplicate-table error, thanks to create-if-absent semantics). -/
theorem c6_initialize_tables (st : EngineState) (h : st.connected = true) :
    ((initializeTablesOp st).result = .ok () →
      (initializeTablesOp st).events =
        ((st.tables.map (fun p => p.2)).map (fun c => Event.exec c.get_create_sql)) ++
          [Event.commit] ∧
      (initializeTablesOp st).state.file = (initializeTablesOp st).state.pending) ∧
    (∀ e, (initializeTablesOp st).result = .error e →
      (∃ k, k + 1 ≤ st.tables.length ∧
        (initializeTablesOp st).events =
          (((st.tables.map (fun p => p.2)).take (k + 1)).map
            (fun c => Event.exec c.get_create_sql))) ∧
      Event.commit ∉ (initializeTablesOp st).events) ∧
    ((initializeTablesOp st).result = .ok () →
      (initializeTablesOp (initializeTablesOp st).state).result = .ok () ∧
      (initializeTablesOp (initializeTablesOp st).state).state =
        (initializeTablesOp st).state) := by
  rcases hrc : runCreates st.pending (st.tables.map (fun p => p.2)) with ⟨eOpt, db2, evs⟩
  cases eOpt with
  | some e =>
    have hop := initializeTablesOp_err_char st e db2 evs h hrc
    refine ⟨?_, ?_, ?_⟩
    · intro hres
      rw [hop] at hres
      cases hres
    · intro e2 hres
      rw [hop]
      obtain ⟨k, hk, hevs⟩ := runCreates_err_events _ _ _ _ _ hrc
      refine ⟨⟨k, by simpa using hk, by rw [hevs]⟩, ?_⟩
      rw [hevs]
      intro hmem
      obtain ⟨c2, -, hc2⟩ := List.mem_map.mp hmem
      cases hc2
    · intro hres
      rw [hop] at hres
      cases hres
  | none =>
    have hop := initializeTablesOp_ok_char st db2 evs h hrc
    obtain ⟨hevs, -, -⟩ := runCreates_ok_char _ _ _ _ hrc
    refine ⟨?_, ?_, ?_⟩
    · intro _
      rw [hop, hevs]
      exact ⟨rfl, rfl⟩
    · intro e2 hres
      rw [hop] at hres
      cases hres
    · intro _
      rw [hop]
      have hrc2 : runCreates
          (({ st with pending := db2, file := db2 } : EngineState)).pending
          ((({ st with pending := db2, file := db2 } : EngineState)).tables.map
            (fun p => p.2)) = (none, db2, evs) :=
        runCreates_idem _ _ _ _ hrc
      have hop2 := initializeTablesOp_ok_char
        ({ st with pending := db2, file := db2 }) db2 evs h hrc2
      rw [hop2]
      exact ⟨rfl, rfl⟩

def c6St : EngineState :=
  ⟨true, [], [],
   [("task", ⟨"task", [("id", "INTEGER"), ("name", "VARCHAR"), ("priority", "INTEGER")],
     "id", true⟩),
    ("config", ⟨"config", [("k", "TEXT"), ("v", "TEXT")], "k", false⟩)], [], 0⟩

/-- Witness for C6 at a concrete two-table registry: the first run
succeeds with both creates, in order, then one commit; the second run
succeeds and leaves the state identical. -/
theorem c6_witness :
    (initializeTablesOp c6St).events =
      [Event.exec "CREATE TABLE IF NOT EXISTS task (id INTEGER PRIMARY KEY AUTOINCREMENT, name VARCHAR, priority INTEGER)",
       Event.exec "CREATE TABLE IF NOT EXISTS config (k TEXT PRIMARY KEY, v TEXT)",
       Event.commit] ∧
    (initializeTablesOp (initializeTablesOp c6St).state).result = .ok () ∧
    (initializeTablesOp (initializeTablesOp c6St).state).state =
      (initializeTablesOp c6St).state :=
  ⟨((c6_initialize_tables c6St rfl).1 rfl).1.trans rfl,
   ((c6_initialize_tables c6St rfl).2.2 rfl).1,
   ((c6_initialize_tables c6St rfl).2.2 rfl).2⟩

end AmeDb
